import Mathlib

/-!
Shallow embedding of the Polymarket scanner frontend core
(connection-lifecycle hook, message dispatcher, filter engine,
update coordinator) and proofs about it.

Numeric payload fields (score, volume, liquidity, spread, …) are
TypeScript `number`s restricted in this development to rationals;
optional / nullable JavaScript values are modelled as `Option`,
with `none` standing for "absent, `null`, or otherwise falsy".
-/

namespace Scanner

/-- A signal record, with exactly the fields the dashboard's filter
(`filteredSignals` in the page component) reads. -/
structure Signal where
  score : ℚ
  volume_24h : ℚ
  liquidity : ℚ
  whale_count : ℚ
  unique_whale_count : ℚ
  spread : ℚ
  hours_remaining : ℚ
  level : String
deriving DecidableEq

/-- The per-view threshold profile (`ScannerSettings` in the page component). -/
structure ScannerSettings where
  minWhaleCount : ℚ
  minUniqueWhales : ℚ
  minVolumeUsd : ℚ
  minLiquidity : ℚ
  maxSpread : ℚ
  maxTimeHours : ℚ
  minNewsCount : ℚ
  minScore : ℚ
  showWatchLevel : Bool
deriving DecidableEq

/-- One signal's passage through the conjunctive filter of
`filteredSignals` (page component, early-return chain translated
branch by branch).  `activeTab` and `strategy` are the page's
`activeTab` and `hotSettings.strategy`. -/
def signalPasses (activeTab strategy : String) (st : ScannerSettings)
    (sig : Signal) : Bool :=
  if sig.score < st.minScore then false
  else if sig.volume_24h < st.minVolumeUsd then false
  else if sig.liquidity < st.minLiquidity then false
  else
    let isProInsights := activeTab == "hot"
    let isWhaleStrategy := isProInsights && strategy == "whale"
    let isScalpStrategy := isProInsights && strategy == "scalp"
    if (!isProInsights || isWhaleStrategy) &&
        (sig.whale_count < st.minWhaleCount ||
         sig.unique_whale_count < st.minUniqueWhales) then false
    else if !isScalpStrategy &&
        (st.maxSpread > 0 && sig.spread > st.maxSpread) then false
    else if st.maxTimeHours > 0 && sig.hours_remaining > st.maxTimeHours then
      false
    else if !st.showWatchLevel && sig.level == "watch" then false
    else true

/-- The function `filteredSignals`: the visible subset of the current record set. -/
def filteredSignals (activeTab strategy : String) (st : ScannerSettings)
    (signals : List Signal) : List Signal :=
  signals.filter (signalPasses activeTab strategy st)

/-- Browser `WebSocket.readyState` values. -/
inductive WSReady where
  | connecting
  | opened
  | closing
  | closed
deriving DecidableEq

/-- One `WebSocket` instance created by `connect`, identified by creation
order.  An instance stays in this list even after `wsRef` stops pointing
at it, because its event handlers remain attached. -/
structure Chan where
  id : Nat
  rs : WSReady
deriving DecidableEq

/-- State owned by the `useWebSocket` hook (first variant): `wsRef`,
`isConnected`, `connectionError`, `reconnectTimeoutRef`,
`pingIntervalRef`, plus the list of every socket instance created so
far.  A pending timer is recorded together with its delay/period. -/
structure MgrState where
  channels : List Chan
  wsRef : Option Nat
  isConnected : Bool
  connectionError : Option String
  reconnectTimeout : Option Nat
  pingInterval : Option Nat
  nextId : Nat
deriving DecidableEq

/-- The `readyState` of the socket with identifier `i`, if it exists. -/
def lookupChan (s : MgrState) (i : Nat) : Option WSReady :=
  (s.channels.find? (fun c => c.id == i)).map (fun c => c.rs)

/-- The value of `wsRef.current?.readyState`: the `readyState` of the socket `wsRef`
currently points at. -/
def refReady (s : MgrState) : Option WSReady :=
  s.wsRef.bind (lookupChan s)

/-- The hook operation `connect`: returns unchanged when `wsRef.current?.readyState ===
WebSocket.OPEN`; otherwise constructs a fresh `WebSocket` (initially
CONNECTING) and stores it in `wsRef`, without touching any previously
created socket. -/
def connect (s : MgrState) : MgrState :=
  if refReady s == some .opened then s
  else
    { s with channels := s.channels ++ [⟨s.nextId, .connecting⟩],
             wsRef := some s.nextId, nextId := s.nextId + 1 }

/-- Overwrite the `readyState` of socket `i`. -/
def setChan (s : MgrState) (i : Nat) (r : WSReady) : MgrState :=
  { s with channels :=
      s.channels.map (fun c => if c.id == i then { c with rs := r } else c) }

/-- The `ws.onopen` handler of socket `i`, firing when that socket's
handshake completes: marks it OPEN, sets `isConnected`, clears
`connectionError`, and starts the 25000 ms ping interval. -/
def wsOpenEv (s : MgrState) (i : Nat) : MgrState :=
  if lookupChan s i == some .connecting then
    { setChan s i .opened with
        isConnected := true, connectionError := none,
        pingInterval := some 25000 }
  else s

/-- The `ws.onclose` handler of socket `i`: marks it CLOSED, clears
`isConnected`, clears the ping interval, and unconditionally schedules a
reconnect via `setTimeout(connect, 5000)`. -/
def wsCloseEv (s : MgrState) (i : Nat) : MgrState :=
  match lookupChan s i with
  | none => s
  | some r =>
      if r == .closed then s
      else
        { setChan s i .closed with
            isConnected := false, pingInterval := none,
            reconnectTimeout := some 5000 }

/-- The hook operation `disconnect`: clears the pending reconnect timeout and ping
interval, then calls `close()` on the socket in `wsRef` (moving it to
CLOSING; its close event fires later) and nulls `wsRef`. -/
def disconnect (s : MgrState) : MgrState :=
  let s1 := { s with reconnectTimeout := none, pingInterval := none }
  match s1.wsRef with
  | some i => { setChan s1 i .closing with wsRef := none }
  | none => s1

/-- The reconnect timer firing: consumes the pending timeout and calls
`connect`. -/
def reconnectFireEv (s : MgrState) : MgrState :=
  if s.reconnectTimeout.isSome then
    connect { s with reconnectTimeout := none }
  else s

/-- An event on the hook's single-threaded queue: the two hook
operations plus the asynchronous socket and timer callbacks. -/
inductive MgrEv where
  | connectCall
  | disconnectCall
  | wsOpen (i : Nat)
  | wsClose (i : Nat)
  | reconnectFire
deriving DecidableEq

/-- One step of the connection-manager state machine. -/
def mgrStep (s : MgrState) : MgrEv → MgrState
  | .connectCall => connect s
  | .disconnectCall => disconnect s
  | .wsOpen i => wsOpenEv s i
  | .wsClose i => wsCloseEv s i
  | .reconnectFire => reconnectFireEv s

/-- The hook's initial state: no socket, no timers, disconnected. -/
def mgrInit : MgrState :=
  ⟨[], none, false, none, none, none, 0⟩

/-- Run a sequence of events from the initial state. -/
def mgrRun (evs : List MgrEv) : MgrState :=
  evs.foldl mgrStep mgrInit

/-- Sockets that are live: CONNECTING or OPEN. -/
def liveChannels (s : MgrState) : List Chan :=
  s.channels.filter (fun c => c.rs == .connecting || c.rs == .opened)

/-- First `useWebSocket` variant: the options bag lives in
`callbacksRef`, refreshed by an effect on every change, while `connect`
and `disconnect` have empty dependency lists, so the mount effect never
re-runs.  `α` is the type of the options bag. -/
structure Hook1State (α : Type) where
  callbacksRef : α
  mgr : MgrState

/-- The `useEffect([options])` of the first variant: a new options bag
only overwrites `callbacksRef.current`. -/
def updateCallbacks {α : Type} (opts : α) (s : Hook1State α) :
    Hook1State α :=
  { s with callbacksRef := opts }

/-- The callback bag a message dispatched now would reach: the handlers
read `callbacksRef.current` at dispatch time. -/
def dispatchTarget {α : Type} (s : Hook1State α) : α :=
  s.callbacksRef

/-- Second `useWebSocket` variant: `connect` is a `useCallback` with
dependency list `[options]`, so it closes over — and is re-created
upon any identity change of — the options bag; the mount effect depends
on `connect`. -/
structure Hook2State (α : Type) where
  connectDeps : α
  mgr : MgrState

/-- A re-render of the second variant with options bag `opts`: when the
identity of `opts` differs from the one `connect` captured, `connect`
is re-created, so the mount effect `useEffect(..., [connect, disconnect])`
runs its cleanup (`disconnect()`) and then the new `connect()`. -/
def rerenderV2 {α : Type} [DecidableEq α] (opts : α) (s : Hook2State α) :
    Hook2State α :=
  if opts = s.connectDeps then s
  else { connectDeps := opts, mgr := connect (disconnect s.mgr) }

/-- The `data` payload of a wire message; `none` in a field models an
absent (or `null`) JSON field. -/
structure WsData where
  signals : Option (List Signal)
  cached : Option Bool
  cache_age : Option Int
deriving DecidableEq

/-- The `WebSocketMessage` envelope:
`{ type, data?, error?, message? }`. -/
structure WsMessage where
  type : String
  data : Option WsData
  error : Option String
  message : Option String
deriving DecidableEq

/-- The two view-visible pieces of state the `onmessage` handler could
touch: `isConnected` and `connectionError`. -/
structure ConnView where
  isConnected : Bool
  connectionError : Option String
deriving DecidableEq

/-- A subscriber-callback invocation performed by the dispatcher. -/
inductive DispatchCall where
  | signalsUpdate (signals : List Signal) (cached : Bool)
      (cacheAge : Option Int) (err : Option String)
  | whaleTrade (d : WsData)
deriving DecidableEq

/-- JavaScript's `x || null` on a nullable number: `0` is falsy, so a
present `0` becomes `null`. -/
def jsOrNullInt : Option Int → Option Int
  | some n => if n = 0 then none else some n
  | none => none

/-- JavaScript's `x || null` on a nullable string: the empty string is
falsy, so a present `""` becomes `null`. -/
def jsOrNullStr : Option String → Option String
  | some t => if t = "" then none else some t
  | none => none

/-- The `ws.onmessage` handler on an already-parsed envelope: switch on
`message.type`; the `signals_update` and `whale_trade` branches fire a
callback only under `if (message.data)`; `connection_ack`, `pong` and
the default branch only log.  No branch touches `isConnected` or
`connectionError`, the handler returns them unchanged. -/
def onMessage (st : ConnView) (m : WsMessage) :
    ConnView × Option DispatchCall :=
  (st,
    if m.type == "signals_update" then
      match m.data with
      | some d =>
          some (.signalsUpdate (d.signals.getD []) (d.cached.getD false)
            (jsOrNullInt d.cache_age) (jsOrNullStr m.error))
      | none => none
    else if m.type == "whale_trade" then
      match m.data with
      | some d => some (.whaleTrade d)
      | none => none
    else if m.type == "connection_ack" then none
    else if m.type == "pong" then none
    else none)

/-- The dashboard state the pull / push update paths touch: `signals`,
`error`, `isLoading`, `lastUpdate` (`setLastUpdate(new Date())` is
modelled as recording the supplied receipt instant). -/
structure DashState where
  signals : List Signal
  error : Option String
  isLoading : Bool
  lastUpdate : Option Nat
deriving DecidableEq

/-- A parsed pull-response body: optional `error` string, optional
`signals` array (`none` also covers a present non-array value, which
fails the `Array.isArray` test). -/
structure PullBody where
  error : Option String
  signals : Option (List Signal)
deriving DecidableEq

/-- Outcome of one `fetch` of the signals endpoint. -/
inductive PullResult where
  | httpResp (status : Nat) (body : PullBody)
  | networkFailure (msg : String)
deriving DecidableEq

/-- Is `needle` a prefix of `hay`? (character lists) -/
def hasPre : List Char → List Char → Bool
  | [], _ => true
  | _ :: _, [] => false
  | a :: as, b :: bs => a == b && hasPre as bs

/-- Does `needle` occur anywhere inside `hay`? (character lists) -/
def hasSub (needle : List Char) : List Char → Bool
  | [] => hasPre needle []
  | b :: bs => hasPre needle (b :: bs) || hasSub needle bs

/-- JavaScript `hay.includes(needle)` on strings. -/
def strIncludes (hay needle : String) : Bool :=
  hasSub needle.toList hay.toList

/-- The generic error banner used when the caught message points at a
missing or stale backend. -/
def genericBackendMsg : String :=
  "Backend non connecté ou obsolète. Lancez/Redémarrez avec LANCER.command"

/-- The message thrown on a 404 pull response. -/
def endpoint404Msg : String :=
  "Endpoint introuvable. Redémarrez le backend (LANCER.command)."

/-- The `catch` block of `fetchSignals`: sets the error banner (the
generic backend message when the caught message contains "Redémarrez"
or "Failed to fetch", otherwise the message itself) and stops the
loading spinner; the record set is untouched. -/
def applyCatch (st : DashState) (msg : String) : DashState :=
  { st with
      error := some (if strIncludes msg "Redémarrez" ||
          strIncludes msg "Failed to fetch" then genericBackendMsg else msg),
      isLoading := false }

/-- HTTP success as `response.ok` sees it. -/
def okStatus (status : Nat) : Prop :=
  200 ≤ status ∧ status < 300

instance (status : Nat) : Decidable (okStatus status) := by
  unfold okStatus; infer_instance

/-- A pull that failed: non-2xx response or network failure. -/
def failedPull : PullResult → Prop
  | .httpResp status _ => ¬ okStatus status
  | .networkFailure _ => True

instance (r : PullResult) : Decidable (failedPull r) := by
  cases r <;> { unfold failedPull; infer_instance }

/-- The pull operation `fetchSignals` (generic-endpoint path), as a function of the prior
dashboard state and the pull outcome: clear the error, fetch; on a
non-ok response throw (404 gets its dedicated message) into the catch
block; on an ok response, a truthy `data.error` sets the banner and
empties the record set, otherwise a well-formed `data.signals` array
replaces the record set and stamps `lastUpdate`. -/
def fetchSignalsStep (now : Nat) (st : DashState) (r : PullResult) :
    DashState :=
  let st0 := { st with error := none }
  match r with
  | .httpResp status body =>
      if okStatus status then
        match jsOrNullStr body.error with
        | some e =>
            { st0 with error := some e, signals := [], isLoading := false }
        | none =>
            match body.signals with
            | some sigs =>
                { st0 with signals := sigs, lastUpdate := some now,
                           isLoading := false }
            | none => { st0 with isLoading := false }
      else
        applyCatch st0
          (if status == 404 then endpoint404Msg
           else "HTTP " ++ toString status)
  | .networkFailure msg => applyCatch st0 msg

/-- The push handler `onSignalsUpdate` (the dashboard's on-signals subscriber): ignore
pushes outside the scanner tab; while live and the pushed list is
non-empty, replace the record set, stamp `lastUpdate`, and surface a
truthy push error. -/
def onSignalsUpdateStep (activeTab : String) (isLive : Bool) (now : Nat)
    (st : DashState) (newSignals : List Signal)
    (wsError : Option String) : DashState :=
  if activeTab ≠ "scanner" then st
  else if isLive ∧ 0 < newSignals.length then
    let st1 := { st with signals := newSignals, lastUpdate := some now }
    match jsOrNullStr wsError with
    | some e => { st1 with error := some e }
    | none => st1
  else st

/-- A whale trade, with the fields the dashboard reads. -/
structure WhaleTrade where
  id : String
  trader : String
  side : String
  market_question : String
  size_usd : ℚ
  price : ℚ
deriving DecidableEq

/-- The push handler `onWhaleTrade`: `setWhaleTrades(prev => [trade, ...prev].slice(0, 20))`
— prepend the new trade and keep the first 20 entries. -/
def onWhaleTradeStep (t : WhaleTrade) (prev : List WhaleTrade) :
    List WhaleTrade :=
  (t :: prev).take 20

/-- The whale-trade buffer produced by a whole sequence of pushed
trades, starting empty. -/
def whaleBufferRun (ts : List WhaleTrade) : List WhaleTrade :=
  ts.foldl (fun acc t => onWhaleTradeStep t acc) []

end Scanner

/-- C3 scenario profile: minScore 5, minVolumeUsd 1000, maxSpread 0,
maxTimeHours 0, showWatchLevel false, every other threshold zero. -/
def c3Profile : Scanner.ScannerSettings :=
  { minWhaleCount := 0, minUniqueWhales := 0, minVolumeUsd := 1000,
    minLiquidity := 0, maxSpread := 0, maxTimeHours := 0, minNewsCount := 0,
    minScore := 5, showWatchLevel := false }

/-- C3 record 1: score 6, volume 2000, level "opportunity". -/
def c3Rec1 : Scanner.Signal :=
  { score := 6, volume_24h := 2000, liquidity := 0, whale_count := 0,
    unique_whale_count := 0, spread := 0, hours_remaining := 0,
    level := "opportunity" }

/-- C3 record 2: score 3, volume 5000, level "opportunity". -/
def c3Rec2 : Scanner.Signal :=
  { score := 3, volume_24h := 5000, liquidity := 0, whale_count := 0,
    unique_whale_count := 0, spread := 0, hours_remaining := 0,
    level := "opportunity" }

/-- C3 record 3: score 8, volume 500, level "watch". -/
def c3Rec3 : Scanner.Signal :=
  { score := 8, volume_24h := 500, liquidity := 0, whale_count := 0,
    unique_whale_count := 0, spread := 0, hours_remaining := 0,
    level := "watch" }

/-- C3: on the scanner view, the conjunctive filter with profile
{minScore 5, minVolumeUsd 1000, maxSpread 0, maxTimeHours 0,
showWatchLevel false} keeps, out of the three scenario records, exactly
the first one. -/
theorem c3_filter_scenario :
    Scanner.filteredSignals "scanner" "whale" c3Profile
      [c3Rec1, c3Rec2, c3Rec3] = [c3Rec1] := by
  decide

/-- C1 counterexample: calling `open()` while the only channel is still
Connecting is not a no-op — `connect`'s guard tests only
`readyState === OPEN`, so a second socket is created and two channels
are live at once (and after both handshakes complete, two are Open at
once). -/
theorem c1_double_connect_two_live :
    (Scanner.liveChannels
        (Scanner.mgrRun [.connectCall, .connectCall])).length = 2 ∧
    (Scanner.liveChannels
        (Scanner.mgrRun [.connectCall, .connectCall, .wsOpen 0, .wsOpen 1])
      |>.filter (fun c => c.rs == .opened)).length = 2 := by
  decide

/-- C1 amended: calling `open()` while the channel held by `wsRef` is
Open is a no-op — the state is unchanged, so in particular no second
channel is created.  (While the channel is merely Connecting, `open()`
does create a second live channel; see the counterexample.) -/
theorem c1_connect_noop_of_open (s : Scanner.MgrState)
    (h : Scanner.refReady s = some .opened) :
    Scanner.connect s = s := by
  unfold Scanner.connect
  rw [h]
  simp

/-- C1 witness: a concrete reachable state whose channel is Open, on
which `open()` is a no-op. -/
theorem c1_connect_noop_witness :
    Scanner.refReady (Scanner.mgrRun [.connectCall, .wsOpen 0])
        = some .opened ∧
    Scanner.connect (Scanner.mgrRun [.connectCall, .wsOpen 0])
        = Scanner.mgrRun [.connectCall, .wsOpen 0] :=
  ⟨by decide,
   c1_connect_noop_of_open (Scanner.mgrRun [.connectCall, .wsOpen 0])
     (by decide)⟩

/-- C2: after `open()`, a completed handshake, and an explicit
`close()`, the socket's close event (which `close()` itself provokes)
still schedules a 5000 ms reconnect, and when that timer fires a brand
new channel is created — the code reconnects even after an explicit
close, contradicting the claim that close cancels all reconnection. -/
theorem c2_reconnect_scheduled_after_explicit_close :
    (Scanner.mgrRun [.connectCall, .wsOpen 0, .disconnectCall, .wsClose 0]
      ).reconnectTimeout = some 5000 ∧
    (Scanner.mgrRun [.connectCall, .wsOpen 0, .disconnectCall, .wsClose 0,
        .reconnectFire]).wsRef = some 1 := by
  decide

/-- A concrete second-variant hook state with an Open channel and
options-bag identity 0. -/
def c7V2State : Scanner.Hook2State Nat :=
  ⟨0, Scanner.mgrRun [.connectCall, .wsOpen 0]⟩

/-- C7 counterexample: in the second `useWebSocket` variant, merely
handing the hook a different options bag (identity 1 instead of 0)
closes the Open channel (socket 0 moves to CLOSING) and opens a
replacement (socket 1), because `connect` depends on `options` and the
mount effect re-runs — refuting the claim that a subscriber-set change
never closes or reopens the channel. -/
theorem c7_variant2_rebuilds_channel :
    c7V2State.mgr.wsRef = some 0 ∧
    Scanner.lookupChan c7V2State.mgr 0 = some .opened ∧
    (Scanner.rerenderV2 1 c7V2State).mgr.wsRef = some 1 ∧
    Scanner.lookupChan (Scanner.rerenderV2 1 c7V2State).mgr 0
        = some .closing := by
  decide

/-- C7 amended: in the `callbacksRef` variant of the hook, changing the
subscriber callbacks leaves the channel (and every other part of the
manager state) untouched, and the next dispatched message reaches
exactly the newly registered callback bag. -/
theorem c7_callbacks_decoupled {α : Type} (opts : α)
    (s : Scanner.Hook1State α) :
    (Scanner.updateCallbacks opts s).mgr = s.mgr ∧
    Scanner.dispatchTarget (Scanner.updateCallbacks opts s) = opts := by
  constructor <;> rfl

/-- C6 counterexample: the envelope `{type:"signals_update"}` is
structurally well-formed (`data` is an optional field), yet the
dispatcher invokes no callback at all, because the `signals_update`
branch is guarded by `if (message.data)`. -/
theorem c6_no_data_no_callback :
    Scanner.onMessage ⟨true, none⟩
      ⟨"signals_update", none, none, none⟩ = (⟨true, none⟩, none) := by
  decide

/-- C6 amended: for every well-formed `signals_update` envelope that
carries a `data` payload, the dispatcher invokes the registered
on-signals callback with exactly four values — the payload's signals
list (empty when absent), the cached flag (false when absent), the
cache_age passed through JavaScript truthiness (absent or 0 become
null), and the envelope's error passed through truthiness (absent or
empty become null) — and leaves the connection-view state unchanged. -/
theorem c6_signals_dispatch (st : Scanner.ConnView) (m : Scanner.WsMessage)
    (d : Scanner.WsData) (ht : m.type = "signals_update")
    (hd : m.data = some d) :
    Scanner.onMessage st m =
      (st, some (.signalsUpdate (d.signals.getD []) (d.cached.getD false)
        (Scanner.jsOrNullInt d.cache_age) (Scanner.jsOrNullStr m.error))) := by
  simp [Scanner.onMessage, ht, hd]

/-- A concrete `signals_update` envelope whose `cache_age` is present
but 0 and whose `error` is present but empty. -/
def c6Msg : Scanner.WsMessage :=
  ⟨"signals_update", some ⟨some [], some true, some 0⟩, some "", none⟩

/-- C6 witness: the amended dispatch theorem applied to `c6Msg`. -/
theorem c6_signals_dispatch_witness :
    c6Msg.type = "signals_update" ∧
    c6Msg.data = some ⟨some [], some true, some 0⟩ ∧
    Scanner.onMessage ⟨true, none⟩ c6Msg =
      (⟨true, none⟩, some (.signalsUpdate [] true none none)) :=
  ⟨rfl, rfl,
   c6_signals_dispatch ⟨true, none⟩ c6Msg ⟨some [], some true, some 0⟩
     rfl rfl⟩

/-- C8: a well-formed envelope whose type is none of signals_update,
whale_trade, connection_ack, pong is dropped — no subscriber callback
is invoked and the connection-view state (isConnected,
connectionError) is unchanged. -/
theorem c8_unknown_type_dropped (st : Scanner.ConnView)
    (m : Scanner.WsMessage)
    (h : m.type ∉ (["signals_update", "whale_trade", "connection_ack",
        "pong"] : List String)) :
    Scanner.onMessage st m = (st, none) := by
  simp only [List.mem_cons, List.mem_singleton, not_or] at h
  obtain ⟨h1, h2, h3, h4, -⟩ := h
  simp [Scanner.onMessage, h1, h2, h3, h4]

/-- C8 witness: a concrete envelope of unrecognized type "bogus" is
dropped. -/
theorem c8_unknown_type_witness :
    ("bogus" : String) ∉ (["signals_update", "whale_trade",
        "connection_ack", "pong"] : List String) ∧
    Scanner.onMessage ⟨false, none⟩ ⟨"bogus", none, none, none⟩
      = (⟨false, none⟩, none) :=
  ⟨by decide,
   c8_unknown_type_dropped ⟨false, none⟩ ⟨"bogus", none, none, none⟩
     (by decide)⟩

/-- C4 counterexample: a 200 pull response carrying both
`error: "boom"` and a signals array clears the displayed record set
(prior set `[c3Rec1]` becomes `[]`) and discards the accompanying
signals instead of applying them. -/
theorem c4_server_error_clears_set :
    (Scanner.fetchSignalsStep 1 ⟨[c3Rec1], none, false, none⟩
        (.httpResp 200 ⟨some "boom", some [c3Rec2]⟩)).signals = [] ∧
    (Scanner.fetchSignalsStep 1 ⟨[c3Rec1], none, false, none⟩
        (.httpResp 200 ⟨some "boom", some [c3Rec2]⟩)).error
      = some "boom" := by
  decide

/-- C4 amended: for every 2xx pull response whose body carries a truthy
`error` field, the error string is surfaced verbatim to the view, while
the displayed record set is cleared to empty (the accompanying signal
data is not applied) and `lastUpdate` is left unchanged. -/
theorem c4_server_error_surfaced (now : Nat) (st : Scanner.DashState)
    (status : Nat) (body : Scanner.PullBody) (e : String)
    (hok : Scanner.okStatus status)
    (he : Scanner.jsOrNullStr body.error = some e) :
    (Scanner.fetchSignalsStep now st (.httpResp status body)).error
        = some e ∧
    (Scanner.fetchSignalsStep now st (.httpResp status body)).signals
        = [] ∧
    (Scanner.fetchSignalsStep now st (.httpResp status body)).lastUpdate
        = st.lastUpdate := by
  simp [Scanner.fetchSignalsStep, hok, he]

/-- C4 witness: the amended theorem at the concrete counterexample
input. -/
theorem c4_server_error_surfaced_witness :
    Scanner.okStatus 200 ∧
    Scanner.jsOrNullStr (Scanner.PullBody.error ⟨some "boom", some [c3Rec2]⟩)
      = some "boom" ∧
    ((Scanner.fetchSignalsStep 1 ⟨[c3Rec1], none, false, none⟩
        (.httpResp 200 ⟨some "boom", some [c3Rec2]⟩)).error
        = some "boom" ∧
     (Scanner.fetchSignalsStep 1 ⟨[c3Rec1], none, false, none⟩
        (.httpResp 200 ⟨some "boom", some [c3Rec2]⟩)).signals = [] ∧
     (Scanner.fetchSignalsStep 1 ⟨[c3Rec1], none, false, none⟩
        (.httpResp 200 ⟨some "boom", some [c3Rec2]⟩)).lastUpdate
        = (⟨[c3Rec1], none, false, none⟩ : Scanner.DashState).lastUpdate) :=
  ⟨by decide, by decide,
   c4_server_error_surfaced 1 ⟨[c3Rec1], none, false, none⟩ 200
     ⟨some "boom", some [c3Rec2]⟩ "boom" (by decide) (by decide)⟩

/-- C5: a failed pull (non-2xx response or network failure) leaves the
previously displayed record set unchanged and ends with a non-null
view-visible error message. -/
theorem c5_pull_failure_keeps_set (now : Nat) (st : Scanner.DashState)
    (r : Scanner.PullResult) (h : Scanner.failedPull r) :
    (Scanner.fetchSignalsStep now st r).signals = st.signals ∧
    (Scanner.fetchSignalsStep now st r).error ≠ none := by
  cases r with
  | httpResp status body =>
      simp only [Scanner.failedPull] at h
      simp [Scanner.fetchSignalsStep, Scanner.applyCatch, h]
  | networkFailure msg =>
      simp [Scanner.fetchSignalsStep, Scanner.applyCatch]

/-- C5 witness: a concrete 500 response keeps the prior record set and
sets an error banner. -/
theorem c5_pull_failure_witness :
    Scanner.failedPull (.httpResp 500 ⟨none, none⟩) ∧
    ((Scanner.fetchSignalsStep 1 ⟨[c3Rec1], none, false, none⟩
        (.httpResp 500 ⟨none, none⟩)).signals
        = (⟨[c3Rec1], none, false, none⟩ : Scanner.DashState).signals ∧
     (Scanner.fetchSignalsStep 1 ⟨[c3Rec1], none, false, none⟩
        (.httpResp 500 ⟨none, none⟩)).error ≠ none) :=
  ⟨by decide,
   c5_pull_failure_keeps_set 1 ⟨[c3Rec1], none, false, none⟩
     (.httpResp 500 ⟨none, none⟩) (by decide)⟩

/-- C10: while the scanner view is active and live mode is on, a
`signals_update` push with an empty signal list leaves the dashboard
state — in particular the displayed record set and the last-update
timestamp — entirely unchanged. -/
theorem c10_empty_push_dropped (now : Nat) (st : Scanner.DashState)
    (wsError : Option String) :
    Scanner.onSignalsUpdateStep "scanner" true now st [] wsError = st := by
  simp [Scanner.onSignalsUpdateStep]

/-- Truncation law `(xs ++ ys.take n).take n = (xs ++ ys).take n`: truncating at `n`
cannot see past what the inner truncation kept. -/
theorem take_append_take {α : Type} (xs ys : List α) (n : ℕ) :
    (xs ++ ys.take n).take n = (xs ++ ys).take n := by
  rw [List.take_append_eq_append_take, List.take_append_eq_append_take,
    List.take_take]
  congr 1
  exact congrArg ys.take (Nat.min_eq_left (Nat.sub_le n xs.length))

/-- Folding the whale-trade step over a trade sequence from any buffer
of length at most 20 yields the 20 most recent entries, newest first. -/
theorem whale_fold_general (ts : List Scanner.WhaleTrade) :
    ∀ acc : List Scanner.WhaleTrade, acc.length ≤ 20 →
      ts.foldl (fun a t => Scanner.onWhaleTradeStep t a) acc
        = (ts.reverse ++ acc).take 20 := by
  induction ts with
  | nil =>
      intro acc h
      simpa using (List.take_of_length_le h).symm
  | cons t rest ih =>
      intro acc h
      simp only [List.foldl_cons, List.reverse_cons]
      rw [show Scanner.onWhaleTradeStep t acc = (t :: acc).take 20 from rfl,
        ih ((t :: acc).take 20)
          (le_trans (List.length_take_le 20 (t :: acc)) (le_refl 20)),
        take_append_take, List.append_assoc]
      rfl

/-- C9: the whale-trade buffer is a bounded FIFO cache of capacity 20 —
for every sequence of pushed trades the resulting buffer holds exactly
the 20 most recent trades (newest first, the oldest evicted first), so
its length never exceeds 20. -/
theorem c9_whale_buffer_bounded_fifo (ts : List Scanner.WhaleTrade) :
    Scanner.whaleBufferRun ts = ts.reverse.take 20 ∧
    (Scanner.whaleBufferRun ts).length ≤ 20 := by
  have h := whale_fold_general ts [] (by simp)
  simp only [List.append_nil] at h
  refine ⟨h, ?_⟩
  rw [Scanner.whaleBufferRun, h, List.length_take]
  exact Nat.min_le_left 20 ts.reverse.length
